import Mathlib

/-!
Shallow embedding of the orchestration core of XSStrike (src/xsstrike.py,
function `main`) together with the configuration-resolution helpers it
uses. External collaborators (the crawler `photon`, the header prompt,
`extractHeaders`, `converter`, `reader`, the default config values) are
modelled as abstract parameters bundled in a `Collab` structure, exactly
as the code treats them: opaque function calls whose results flow through
the orchestrator.
-/

namespace XSStrike

/-- The four operating modes dispatched by `main` (lines 220-232). -/
inductive Mode where
  | Fuzz : Mode
  | Bruteforce : Mode
  | Scan : Mode
  | Crawl : Mode
  deriving DecidableEq, Repr

/-- The `--headers` argument: argparse uses nargs with a constant, so the
value is absent (None), the boolean True (interactive marker), or a
literal string. -/
inductive HeaderArg where
  | absent : HeaderArg
  | interactive : HeaderArg
  | literal : String → HeaderArg
  deriving DecidableEq, Repr

/-- The parsed command-line arguments of `setup_args`, with the argparse
dest names. Optional string arguments default to None (`Option.none`). -/
structure Args where
  target : Option String
  paramData : Option String
  encode : Option String
  fuzz : Bool
  update : Bool
  timeout : Nat
  proxy : Bool
  recursive : Bool
  jsonData : Bool
  path : Bool
  args_seeds : Option String
  args_file : Option String
  level : Nat
  add_headers : HeaderArg
  threadCount : Nat
  delay : Nat
  skip : Bool
  skipDOM : Bool
  blindXSS : Bool

/-- External collaborators and process-wide configuration values consumed
by `main`: defaults from core.config, the interactive prompt text, the
header parser, the two uses of `converter`, the line reader, and the
photon crawler (whose result per invocation is a pair of a forms list and
a URLs list). `definitionsFound` models whether db/definitions.json is
found by `find_db_file`. -/
structure Collab where
  defaultHeaders : List (String × String)
  promptText : String
  extractHeaders : String → List (String × String)
  pathConverter : Option String → Option String → Option String
  jsonConverter : Option String → Option String
  fileReader : String → List String
  defaultPayloads : List String
  definitionsFound : Bool
  photon : String → List (String × String) → Nat → Nat → Nat → Nat → Bool →
    List String × List String
  blindPayload : String

/-- Python truthiness of an optional string argument: None and the empty
string are falsy, every other string is truthy. -/
def pyTruthy : Option String → Bool
  | none => false
  | some s => s != ""

/-- Mode dispatch of `main` (lines 220-232): `if args.fuzz`, then
`elif not args.recursive and not args.args_seeds` (payload file present
selects the bruteforcer, otherwise scan), else crawl. -/
def selectMode (fuzz recursive seedsGiven fileGiven : Bool) : Mode :=
  if fuzz then Mode.Fuzz
  else if !recursive && !seedsGiven then
    if fileGiven then Mode.Bruteforce else Mode.Scan
  else Mode.Crawl

/-- Python dict assignment `d[k] = v` on a mapping modelled as an
association list with unique keys: replace the value of an existing key in
place, otherwise append the new binding at the end. -/
def setKey : List (String × String) → String → String → List (String × String)
  | [], k, v => [(k, v)]
  | (k0, v0) :: rest, k, v =>
    if k0 = k then (k, v) :: rest else (k0, v0) :: setKey rest k v

/-- Python dict lookup `d.get(k)` on the association-list model. -/
def getKey : List (String × String) → String → Option String
  | [], _ => none
  | (k0, v0) :: rest, k => if k0 = k then some v0 else getKey rest k

/-- Headers logic of `main` (lines 161-165): the interactive marker calls
the prompt collaborator and parses its text, a literal string is parsed
directly, and otherwise the process-wide default headers are used. -/
def baseHeaders (c : Collab) (a : Args) : List (String × String) :=
  match a.add_headers with
  | HeaderArg.interactive => c.extractHeaders c.promptText
  | HeaderArg.literal s => c.extractHeaders s
  | HeaderArg.absent => c.defaultHeaders

/-- Header state after the data-processing block (lines 193-199): the
Content-type header is forced to application/json only in the
`elif args.jsonData` branch, i.e. only when `args.path` is not set. -/
def resolvedHeaders (c : Collab) (a : Args) : List (String × String) :=
  if a.path then baseHeaders c a
  else if a.jsonData then
    setKey (baseHeaders c a) "Content-type" "application/json"
  else baseHeaders c a

/-- Body resolution of `main` (lines 194-199): `args.path` set rewrites the
body via `converter(args.target, args.target)`; otherwise `args.jsonData`
set converts the raw literal via `converter(local_param_data)`; otherwise
the raw `args.paramData` passes through unchanged. -/
def localParamData (c : Collab) (a : Args) : Option String :=
  if a.path then c.pathConverter a.target a.target
  else if a.jsonData then c.jsonConverter a.paramData
  else a.paramData

/-- Payload resolution of `main` (lines 202-205): start from the built-in
default list; when a payload file argument is given (truthy) and differs
from the sentinel string "default", replace it by the non-blank lines of
that file (`list(filter(None, reader(args.args_file)))`). -/
def payloadList (c : Collab) (a : Args) : List String :=
  if pyTruthy a.args_file then
    if a.args_file = some "default" then c.defaultPayloads
    else (c.fileReader (a.args_file.getD "")).filter (fun s => s != "")
  else c.defaultPayloads

/-- Seed-list construction of `main` (lines 208-210): the non-blank lines
of the seeds file when one is given, otherwise empty. -/
def seedList (c : Collab) (a : Args) : List String :=
  if pyTruthy a.args_seeds then
    (c.fileReader (a.args_seeds.getD "")).filter (fun s => s != "")
  else []

/-- Seed order iterated by the crawl branch (lines 231-234): the file
seeds in file order, then the explicit target appended once, last, when
one is given. -/
def crawlSeedOrder (c : Collab) (a : Args) : List String :=
  seedList c a ++ (if pyTruthy a.target then [a.target.getD ""] else [])

/-- List normalization before `zip` (lines 249-253): compute the absolute
length difference, then extend the shorter of the two lists with that many
sentinel placeholders (`[0] * difference` in the code; here the lists are
lifted to `Option` with `none` as the sentinel). -/
def normalizeCrawl {α β : Type} (forms : List α) (domURLs : List β) :
    List (Option α) × List (Option β) :=
  let fs := forms.map some
  let us := domURLs.map some
  let difference := max fs.length us.length - min fs.length us.length
  if us.length > fs.length then (fs ++ List.replicate difference none, us)
  else if fs.length > us.length then (fs, us ++ List.replicate difference none)
  else (fs, us)

/-- The completion-draining loop (lines 266-271): iterate over the futures
as they complete (here: an arbitrary completion order given as a list),
increment the counter, and record a progress emission whenever the counter
equals the task total or is an exact multiple of the thread count. Returns
the list of counter values at which a progress line is emitted. -/
def drainCompletions {τ : Type} (total T : Nat) : List τ → Nat → List Nat
  | [], _ => []
  | _ :: rest, completed =>
    let c := completed + 1
    if c == total || c % T == 0 then c :: drainCompletions total T rest c
    else drainCompletions total T rest c

/-- Observable actions of `main`, in program order: the interactive header
prompt, loading the definitions knowledge base, running the updater,
dispatching a mode, starting a crawl of one seed, emitting a progress
line. -/
inductive Event where
  | promptHeaders : Event
  | loadDefinitions : Event
  | updaterRun : Event
  | dispatch : Mode → Event
  | crawlSeed : String → Event
  | progressLine : Nat → Nat → Event
  deriving DecidableEq, Repr

/-- Events of one iteration of the crawl loop (lines 234-273): announce
the seed, invoke photon, normalize the two result lists, submit one task
per positional pair (so the batch size is the length of the extended forms
list, the code's `total = len(forms)`), then drain completions emitting
progress lines. -/
def perSeedEvents (c : Collab) (a : Args) (hs : List (String × String))
    (url : String) : List Event :=
  let res := c.photon url hs a.level a.threadCount a.delay a.timeout a.skipDOM
  let nf := (normalizeCrawl res.1 res.2).1
  let nu := (normalizeCrawl res.1 res.2).2
  let pairs := nf.zip nu
  let total := nf.length
  Event.crawlSeed url ::
    (drainCompletions total a.threadCount pairs 0).map
      (fun done => Event.progressLine done total)

/-- The orchestration flow of `main` (lines 143-273) as a pure function
from collaborators and parsed arguments to the trace of observable events
and the process exit code (0 = normal completion). In source order:
header resolution (which may call the interactive prompt), the
definitions.json check (exit 1 when missing), the update switch (exit 0
after updating), the target/seeds presence check (exit 1 when both are
absent), then dispatch of exactly one mode; the crawl branch iterates the
seed order and emits per-seed events. -/
def main (c : Collab) (a : Args) : List Event × Nat :=
  let headerEvents : List Event :=
    match a.add_headers with
    | HeaderArg.interactive => [Event.promptHeaders]
    | _ => []
  if !c.definitionsFound then (headerEvents, 1)
  else
    let ev := headerEvents ++ [Event.loadDefinitions]
    if a.update then (ev ++ [Event.updaterRun], 0)
    else if !pyTruthy a.target && !pyTruthy a.args_seeds then (ev, 1)
    else
      let mode := selectMode a.fuzz a.recursive
        (pyTruthy a.args_seeds) (pyTruthy a.args_file)
      match mode with
      | Mode.Crawl =>
        (ev ++ [Event.dispatch Mode.Crawl] ++
          (crawlSeedOrder c a).flatMap (perSeedEvents c a (resolvedHeaders c a)), 0)
      | m => (ev ++ [Event.dispatch m], 0)

/-- Projection extracting the seed URL announced by a crawl-seed event. -/
def seedOf : Event → Option String
  | Event.crawlSeed u => some u
  | _ => none

/-- A concrete collaborator assignment used to instantiate theorems with
hypotheses: empty defaults, a two-line seeds file, and a crawler returning
three forms and two URLs. -/
def cSample : Collab where
  defaultHeaders := []
  promptText := ""
  extractHeaders := fun _ => []
  pathConverter := fun _ _ => none
  jsonConverter := fun x => x
  fileReader := fun _ => ["s1", "s2"]
  defaultPayloads := ["p1", "p2"]
  definitionsFound := true
  photon := fun _ _ _ _ _ _ _ => (["fA", "fB", "fC"], ["uX", "uY"])
  blindPayload := "bp"

/-- A concrete argument record with every switch off and no optional
argument given; individual theorems override the fields they need. -/
def aSample : Args where
  target := none
  paramData := none
  encode := none
  fuzz := false
  update := false
  timeout := 7
  proxy := false
  recursive := false
  jsonData := false
  path := false
  args_seeds := none
  args_file := none
  level := 2
  add_headers := HeaderArg.absent
  threadCount := 2
  delay := 0
  skip := false
  skipDOM := false
  blindXSS := false

end XSStrike

namespace XSStrike

/-- `getKey` after `setKey` on the same key yields the assigned value. -/
theorem getKey_setKey (m : List (String × String)) (k v : String) :
    getKey (setKey m k v) k = some v := by
  induction m with
  | nil => simp [setKey, getKey]
  | cons p rest ih =>
    by_cases h : p.1 = k
    · simp [setKey, getKey, h]
    · simp [setKey, getKey, h, ih]

/-- C1: Mode selection follows the strict priority: fuzz set selects Fuzz
regardless of all other flags; with fuzz unset, recursive unset and no
seeds the mode is Bruteforce when a payload file is given and Scan
otherwise; in every other configuration (fuzz unset, and recursive set or
seeds given) the mode is Crawl, so a payload file never overrides Crawl. -/
theorem mode_selection_priority (fz rc sg fg : Bool) :
    (fz = true → selectMode fz rc sg fg = Mode.Fuzz) ∧
    (fz = false → rc = false → sg = false →
      selectMode fz rc sg fg = (if fg then Mode.Bruteforce else Mode.Scan)) ∧
    (fz = false → (rc = true ∨ sg = true) → selectMode fz rc sg fg = Mode.Crawl) := by
  cases fz <;> cases rc <;> cases sg <;> cases fg <;> simp [selectMode]

/-- Witness for C1 at a concrete flag configuration: fuzz unset, recursive
set, payload file given still selects Crawl. -/
theorem mode_selection_priority_witness :
    selectMode false true false true = Mode.Crawl :=
  (mode_selection_priority false true false true).2.2 rfl (Or.inl rfl)

/-- C6 counterexample: with both the path-injection flag and the jsonBody
flag set (and the default, empty header source), the resolved headers do
not contain Content-type application/json — the code forces the header
only in the `elif args.jsonData` branch, which the path branch shadows. -/
theorem json_header_counterexample :
    ¬ getKey (resolvedHeaders cSample { aSample with jsonData := true, path := true })
        "Content-type" = some "application/json" := by
  decide

/-- C6 (amended): for every configuration with the jsonBody flag set and
the path-injection flag unset, the resolved headers map Content-type to
application/json, regardless of which header source was used. -/
theorem json_header_forced (c : Collab) (a : Args)
    (hj : a.jsonData = true) (hp : a.path = false) :
    getKey (resolvedHeaders c a) "Content-type" = some "application/json" := by
  simp [resolvedHeaders, hj, hp, getKey_setKey]

/-- Witness for C6 (amended) at a concrete configuration. -/
theorem json_header_forced_witness :
    getKey (resolvedHeaders cSample { aSample with jsonData := true })
        "Content-type" = some "application/json" :=
  json_header_forced cSample { aSample with jsonData := true } rfl rfl

/-- C7: Body resolution follows the priority order: path-injection set
derives the body from the path-rewrite collaborator applied to the target;
otherwise jsonBody set derives it from the JSON-conversion collaborator
applied to the raw literal; otherwise the raw literal passes through
unchanged (so None stays None). -/
theorem body_resolution_priority (c : Collab) (a : Args) :
    (a.path = true → localParamData c a = c.pathConverter a.target a.target) ∧
    (a.path = false → a.jsonData = true →
      localParamData c a = c.jsonConverter a.paramData) ∧
    (a.path = false → a.jsonData = false → localParamData c a = a.paramData) := by
  refine ⟨fun h1 => ?_, fun h1 h2 => ?_, fun h1 h2 => ?_⟩
  · simp [localParamData, h1]
  · simp [localParamData, h1, h2]
  · simp [localParamData, h1, h2]

/-- Witness for C7 at a concrete configuration with no body literal: the
raw None passes through unchanged. -/
theorem body_resolution_priority_witness :
    localParamData cSample aSample = none :=
  (body_resolution_priority cSample aSample).2.2 rfl rfl

/-- C9: Payload resolution: a payload-file path given (truthy) and not
equal to the sentinel "default" loads the ordered non-blank lines of that
file; no file given, or the file equal to "default", keeps the built-in
default list. -/
theorem payload_resolution (c : Collab) (a : Args) :
    (∀ p : String, a.args_file = some p → p ≠ "" → p ≠ "default" →
      payloadList c a = (c.fileReader p).filter (fun s => s != "")) ∧
    (pyTruthy a.args_file = false → payloadList c a = c.defaultPayloads) ∧
    (a.args_file = some "default" → payloadList c a = c.defaultPayloads) := by
  refine ⟨fun p hp hne hnd => ?_, fun h => ?_, fun h => ?_⟩
  · simp [payloadList, hp, pyTruthy, bne_iff_ne, hne, hnd]
  · simp [payloadList, h]
  · simp [payloadList, h, pyTruthy]

/-- Witness for C9 at a concrete configuration: a real payload file loads
its non-blank lines. -/
theorem payload_resolution_witness :
    payloadList cSample { aSample with args_file := some "payloads.txt" }
        = ["s1", "s2"] :=
  (payload_resolution cSample { aSample with args_file := some "payloads.txt" }).1
    "payloads.txt" rfl (by decide) (by decide)

/-- C10: with fuzz unset, recursive unset, no seeds, and the payload-file
argument equal to the literal "default", the selected mode is Bruteforce
(the sentinel counts as a payload file for mode selection) while the
payload list is the built-in default list, not lines read from a file
named "default". -/
theorem default_sentinel_bruteforce (c : Collab) (a : Args)
    (hf : a.fuzz = false) (hr : a.recursive = false)
    (hs : a.args_seeds = none) (hfile : a.args_file = some "default") :
    selectMode a.fuzz a.recursive (pyTruthy a.args_seeds) (pyTruthy a.args_file)
        = Mode.Bruteforce ∧
    payloadList c a = c.defaultPayloads := by
  constructor
  · simp [selectMode, hf, hr, hs, hfile, pyTruthy]
  · simp [payloadList, hfile, pyTruthy]

/-- Normal form of the first normalized list: the real forms lifted with
`some`, padded on the right with sentinels up to the common length. -/
theorem normalizeCrawl_fst {α β : Type} (forms : List α) (domURLs : List β) :
    (normalizeCrawl forms domURLs).1 = forms.map some ++
      List.replicate (max forms.length domURLs.length - forms.length)
        (none : Option α) := by
  unfold normalizeCrawl
  rcases lt_trichotomy forms.length domURLs.length with h | h | h
  · simp [h, Nat.max_eq_right h.le, Nat.min_eq_left h.le, Nat.not_lt.mpr h.le]
  · simp [h]
  · simp [h, Nat.max_eq_left h.le, Nat.not_lt.mpr h.le,
      Nat.sub_eq_zero_of_le h.le]

/-- Normal form of the second normalized list: the real URLs lifted with
`some`, padded on the right with sentinels up to the common length. -/
theorem normalizeCrawl_snd {α β : Type} (forms : List α) (domURLs : List β) :
    (normalizeCrawl forms domURLs).2 = domURLs.map some ++
      List.replicate (max forms.length domURLs.length - domURLs.length)
        (none : Option β) := by
  unfold normalizeCrawl
  rcases lt_trichotomy forms.length domURLs.length with h | h | h
  · simp [h, Nat.max_eq_right h.le, Nat.sub_eq_zero_of_le h.le,
      Nat.not_lt.mpr h.le]
  · simp [h]
  · simp [h, Nat.max_eq_left h.le, Nat.min_eq_right h.le, Nat.not_lt.mpr h.le]

/-- Both normalized lists have the common length max(m, n). -/
theorem normalizeCrawl_lengths {α β : Type} (forms : List α) (domURLs : List β) :
    (normalizeCrawl forms domURLs).1.length = max forms.length domURLs.length ∧
    (normalizeCrawl forms domURLs).2.length = max forms.length domURLs.length := by
  rw [normalizeCrawl_fst, normalizeCrawl_snd]
  constructor <;> simp

/-- C2: after normalization both sequences have length max(m, n); pairing
is strictly positional (the pair at index i is made of the entries at
index i of each list, not a cross product); the first min(m, n) pairs
contain two real elements and the remaining pairs each contain exactly one
sentinel. -/
theorem normalize_positional_pairing {α β : Type}
    (forms : List α) (urls : List β) :
    (normalizeCrawl forms urls).1.length = max forms.length urls.length ∧
    (normalizeCrawl forms urls).2.length = max forms.length urls.length ∧
    ((normalizeCrawl forms urls).1.zip (normalizeCrawl forms urls).2).length
      = max forms.length urls.length ∧
    (∀ i : Nat, ∀ x : Option α, ∀ y : Option β,
      ((normalizeCrawl forms urls).1.zip (normalizeCrawl forms urls).2)[i]?
          = some (x, y) →
        (normalizeCrawl forms urls).1[i]? = some x ∧
        (normalizeCrawl forms urls).2[i]? = some y) ∧
    (∀ i : Nat, i < min forms.length urls.length →
      (∃ a : α, (normalizeCrawl forms urls).1[i]? = some (some a)) ∧
      (∃ b : β, (normalizeCrawl forms urls).2[i]? = some (some b))) ∧
    (∀ i : Nat, min forms.length urls.length ≤ i →
      i < max forms.length urls.length →
      ((normalizeCrawl forms urls).1[i]? = some none ∧
        (normalizeCrawl forms urls).2[i]? ≠ some none) ∨
      ((normalizeCrawl forms urls).1[i]? ≠ some none ∧
        (normalizeCrawl forms urls).2[i]? = some none)) := by
  obtain ⟨hl1, hl2⟩ := normalizeCrawl_lengths forms urls
  refine ⟨hl1, hl2, ?_, ?_, ?_, ?_⟩
  · rw [List.length_zip, hl1, hl2, min_self]
  · intro i x y h
    exact List.getElem?_zip_eq_some.mp h
  · intro i hi
    rw [normalizeCrawl_fst, normalizeCrawl_snd]
    have hif : i < forms.length := lt_of_lt_of_le hi (min_le_left _ _)
    have hiu : i < urls.length := lt_of_lt_of_le hi (min_le_right _ _)
    constructor
    · refine ⟨forms.get ⟨i, hif⟩, ?_⟩
      rw [List.getElem?_append_left (by simpa using hif), List.getElem?_map]
      simp [List.getElem?_eq_getElem hif]
    · refine ⟨urls.get ⟨i, hiu⟩, ?_⟩
      rw [List.getElem?_append_left (by simpa using hiu), List.getElem?_map]
      simp [List.getElem?_eq_getElem hiu]
  · intro i hmin hmax
    rw [normalizeCrawl_fst, normalizeCrawl_snd]
    rcases Nat.le_total forms.length urls.length with h | h
    · left
      have hif : forms.length ≤ i := by
        rwa [min_eq_left h] at hmin
      have hiu : i < urls.length := by
        rwa [max_eq_right h] at hmax
      constructor
      · rw [List.getElem?_append_right (by simpa using hif),
          List.getElem?_replicate]
        have : i - forms.length < max forms.length urls.length - forms.length := by
          omega
        simp [this]
      · rw [List.getElem?_append_left (by simpa using hiu), List.getElem?_map]
        simp [List.getElem?_eq_getElem hiu]
    · right
      have hiu : urls.length ≤ i := by
        rwa [min_eq_right h] at hmin
      have hif : i < forms.length := by
        rwa [max_eq_left h] at hmax
      constructor
      · rw [List.getElem?_append_left (by simpa using hif), List.getElem?_map]
        simp [List.getElem?_eq_getElem hif]
      · rw [List.getElem?_append_right (by simpa using hiu),
          List.getElem?_replicate]
        have : i - urls.length < max forms.length urls.length - urls.length := by
          omega
        simp [this]

/-- Witness for C2 on the spec example: forms of length 3, urls of length
2; both normalized lists have length 3 and the third pair carries exactly
one sentinel, on the urls side. -/
theorem normalize_positional_pairing_witness :
    (normalizeCrawl ["fA", "fB", "fC"] ["uX", "uY"]).1.length = 3 ∧
    (((normalizeCrawl ["fA", "fB", "fC"] ["uX", "uY"]).1[2]? = some none ∧
        (normalizeCrawl ["fA", "fB", "fC"] ["uX", "uY"]).2[2]? ≠ some none) ∨
      ((normalizeCrawl ["fA", "fB", "fC"] ["uX", "uY"]).1[2]? ≠ some none ∧
        (normalizeCrawl ["fA", "fB", "fC"] ["uX", "uY"]).2[2]? = some none)) :=
  ⟨(normalize_positional_pairing ["fA", "fB", "fC"] ["uX", "uY"]).1,
    (normalize_positional_pairing ["fA", "fB", "fC"] ["uX", "uY"]).2.2.2.2.2 2
      (by decide) (by decide)⟩

/-- The drain loop depends only on how many tasks complete, not on which
or in what order: its emissions are the counter values in the processed
range that satisfy the cadence predicate. -/
theorem drainCompletions_eq {τ : Type} (total T : Nat) (order : List τ) :
    ∀ c0 : Nat, drainCompletions total T order c0 =
      (List.range' (c0 + 1) order.length).filter
        (fun c => c == total || c % T == 0) := by
  induction order with
  | nil => intro c0; simp [drainCompletions]
  | cons x xs ih =>
    intro c0
    rw [drainCompletions]
    simp only [List.length_cons, List.range'_succ, List.filter_cons]
    by_cases h : ((c0 + 1) == total || (c0 + 1) % T == 0) = true
    · simp [h, ih (c0 + 1)]
    · simp [h, ih (c0 + 1)]

/-- Count of the multiples of T among 1..n: exactly n / T. -/
theorem count_multiples (T : Nat) (n : Nat) :
    ((List.range' 1 n).filter (fun c => c % T == 0)).length = n / T := by
  induction n with
  | zero => simp
  | succ k ih =>
    rw [List.range'_concat, List.filter_append, List.length_append, ih,
      Nat.succ_div]
    have hk : (1 : Nat) + 1 * k = k + 1 := by omega
    rw [hk]
    by_cases h : T ∣ k + 1
    · have hm : (k + 1) % T = 0 := Nat.mod_eq_zero_of_dvd h
      simp [hm, h]
    · have hm : (k + 1) % T ≠ 0 := fun hc => h (Nat.dvd_of_mod_eq_zero hc)
      simp [hm, h]

/-- Exact number of cadence emissions for 1..total: (total - 1) / T + 1,
which is the ceiling of total / T for positive total and T. -/
theorem emissions_count (total T : Nat) (h0 : 0 < total) :
    ((List.range' 1 total).filter
        (fun c => c == total || c % T == 0)).length
      = (total - 1) / T + 1 := by
  obtain ⟨k, rfl⟩ : ∃ k, total = k + 1 := ⟨total - 1, by omega⟩
  rw [List.range'_concat, List.filter_append, List.length_append]
  have h1 : (List.range' 1 k).filter (fun c => c == k + 1 || c % T == 0)
      = (List.range' 1 k).filter (fun c => c % T == 0) := by
    apply List.filter_congr
    intro c hc
    obtain ⟨i, hik, hins⟩ := List.mem_range'.mp hc
    have hne : c ≠ k + 1 := by omega
    simp [hne]
  rw [h1, count_multiples T k]
  have hk : (1 : Nat) + 1 * k = k + 1 := by omega
  rw [hk]
  simp

/-- C5: for a batch of total > 0 tasks and any completion order, a
progress line is emitted exactly at the counter values that equal the
total or are exact multiples of the thread count, so the number of
emissions is at most the ceiling of total / threadCount and at least 1. -/
theorem progress_cadence {τ : Type} (order : List τ) (T : Nat)
    (h0 : 0 < order.length) (hT : 0 < T) :
    drainCompletions order.length T order 0 =
      (List.range' 1 order.length).filter
        (fun c => c == order.length || c % T == 0) ∧
    (drainCompletions order.length T order 0).length
      ≤ (order.length + T - 1) / T ∧
    1 ≤ (drainCompletions order.length T order 0).length := by
  have he := drainCompletions_eq order.length T order 0
  refine ⟨he, ?_, ?_⟩
  · rw [he, emissions_count order.length T h0]
    have hceil : (order.length + T - 1) / T = (order.length - 1 + T) / T := by
      congr 1
      omega
    rw [hceil, Nat.add_div_right _ hT]
  · rw [he, emissions_count order.length T h0]
    exact Nat.succ_le_succ (Nat.zero_le _)

/-- Witness for C5 on a concrete batch: three tasks drained with two
threads emit progress at counters 2 and 3, two emissions = ceiling(3/2). -/
theorem progress_cadence_witness :
    drainCompletions 3 2 ["tA", "tB", "tC"] 0 = [2, 3] ∧
      (drainCompletions 3 2 ["tA", "tB", "tC"] 0).length ≤ 2 :=
  ⟨((progress_cadence ["tA", "tB", "tC"] 2 (by decide) (by decide)).1).trans
      (by decide),
    (progress_cadence ["tA", "tB", "tC"] 2 (by decide) (by decide)).2.1⟩

/-- C3 counterexample: first, with the interactive header marker, no
target and no seeds, the prompt event occurs in the trace before the
program exits with code 1 — the header-resolution side effect does happen;
second, with the update switch set and no target and no seeds, the program
exits with code 0, not 1. -/
theorem no_target_check_counterexample :
    (Event.promptHeaders ∈
        (main cSample { aSample with add_headers := HeaderArg.interactive }).1 ∧
      (main cSample { aSample with add_headers := HeaderArg.interactive }).2 = 1) ∧
    (main cSample { aSample with update := true }).2 = 0 := by
  decide

/-- C3 (amended): for every configuration with no target, no seeds and the
update switch unset, the program exits with code 1 and no mode is ever
dispatched (the check precedes mode selection); header resolution,
including a possible interactive prompt, happens before the check, not
after it. -/
theorem no_target_exit (c : Collab) (a : Args)
    (ht : pyTruthy a.target = false) (hs : pyTruthy a.args_seeds = false)
    (hu : a.update = false) :
    (main c a).2 = 1 ∧ ∀ m : Mode, Event.dispatch m ∉ (main c a).1 := by
  constructor
  · cases hdb : c.definitionsFound <;>
      cases hah : a.add_headers <;>
        simp [main, ht, hs, hu, hdb, hah]
  · intro m
    cases hdb : c.definitionsFound <;>
      cases hah : a.add_headers <;>
        simp [main, ht, hs, hu, hdb, hah]

/-- Witness for C3 (amended) at a concrete configuration. -/
theorem no_target_exit_witness :
    (main cSample aSample).2 = 1 ∧
      Event.dispatch Mode.Scan ∉ (main cSample aSample).1 :=
  ⟨(no_target_exit cSample aSample rfl rfl rfl).1,
    (no_target_exit cSample aSample rfl rfl rfl).2 Mode.Scan⟩

/-- C8: when the definitions.json knowledge base is missing, the program
exits with code 1 and the trace contains no mode dispatch, no crawl of any
seed and no progress emission — so no crawl or probe activity occurs. -/
theorem missing_definitions_exit (c : Collab) (a : Args)
    (h : c.definitionsFound = false) :
    (main c a).2 = 1 ∧
    (∀ m : Mode, Event.dispatch m ∉ (main c a).1) ∧
    (∀ u : String, Event.crawlSeed u ∉ (main c a).1) ∧
    (∀ x y : Nat, Event.progressLine x y ∉ (main c a).1) := by
  refine ⟨?_, fun m => ?_, fun u => ?_, fun x y => ?_⟩ <;>
    cases hah : a.add_headers <;> simp [main, h, hah]

/-- Witness for C8 at a concrete configuration with the knowledge base
missing. -/
theorem missing_definitions_exit_witness :
    (main { cSample with definitionsFound := false } aSample).2 = 1 ∧
      Event.dispatch Mode.Crawl
        ∉ (main { cSample with definitionsFound := false } aSample).1 :=
  ⟨(missing_definitions_exit { cSample with definitionsFound := false }
      aSample rfl).1,
    (missing_definitions_exit { cSample with definitionsFound := false }
      aSample rfl).2.1 Mode.Crawl⟩

/-- One crawl-loop iteration announces exactly its own seed: the progress
lines it emits carry no seed URL. -/
theorem seedOf_perSeedEvents (c : Collab) (a : Args)
    (hs : List (String × String)) (url : String) :
    (perSeedEvents c a hs url).filterMap seedOf = [url] := by
  simp only [perSeedEvents, List.filterMap_cons, seedOf, List.filterMap_map]
  rw [List.filterMap_eq_nil_iff.mpr (by intro e he; rfl)]

/-- The crawl loop over a list of seeds announces exactly those seeds, in
order. -/
theorem seedOf_flatMap (c : Collab) (a : Args)
    (hs : List (String × String)) (l : List String) :
    (l.flatMap (perSeedEvents c a hs)).filterMap seedOf = l := by
  induction l with
  | nil => simp
  | cons x xs ih =>
    simp [List.flatMap_cons, List.filterMap_append, seedOf_perSeedEvents, ih]

/-- C4: with an explicit target and a seeds file given, the seed order
processed by crawl mode is the file seeds first, in file order, then the
explicit target appended exactly once, last. -/
theorem crawl_seed_order (c : Collab) (a : Args) (t p : String)
    (htgt : a.target = some t) (htne : t ≠ "")
    (hseeds : a.args_seeds = some p) (hpne : p ≠ "")
    (hfuzz : a.fuzz = false) (hupd : a.update = false)
    (hdb : c.definitionsFound = true) :
    (main c a).1.filterMap seedOf
      = (c.fileReader p).filter (fun s => s != "") ++ [t] := by
  have hts : pyTruthy (some t) = true := by
    simp [pyTruthy, bne_iff_ne, htne]
  have hss : pyTruthy (some p) = true := by
    simp [pyTruthy, bne_iff_ne, hpne]
  cases hah : a.add_headers <;>
    simp [main, hdb, hupd, hts, hss, selectMode, hfuzz, hah,
      List.filterMap_append, seedOf, seedOf_flatMap, seedOf_perSeedEvents,
      crawlSeedOrder, seedList, hseeds, htgt]

/-- Witness for C4 at a concrete configuration: two file seeds, then the
target, in that order. -/
theorem crawl_seed_order_witness :
    (main cSample
        { aSample with target := some "http://t", args_seeds := some "seeds.txt" }).1.filterMap
        seedOf = ["s1", "s2", "http://t"] :=
  (crawl_seed_order cSample
      { aSample with target := some "http://t", args_seeds := some "seeds.txt" }
      "http://t" "seeds.txt" rfl (by decide) rfl (by decide) rfl rfl rfl).trans
    (by decide)

/-- Witness for C10 at a concrete configuration. -/
theorem default_sentinel_bruteforce_witness :
    selectMode aSample.fuzz aSample.recursive
        (pyTruthy aSample.args_seeds)
        (pyTruthy (some "default")) = Mode.Bruteforce ∧
    payloadList cSample { aSample with args_file := some "default" }
        = cSample.defaultPayloads :=
  default_sentinel_bruteforce cSample { aSample with args_file := some "default" }
    rfl rfl rfl rfl

end XSStrike
